import Mathlib

/-! Shallow embedding of the GitHub bot in `src/github_bot/__main__.py`.

The module defines three webhook handlers: `on_pr_merged` (pull_request /
closed), `on_issue_opened` (issues / opened) and `on_pr_check_wip`
(pull_request / opened, edited).  Each handler reads fields of the webhook
payload and issues zero or more outbound REST calls through the installation
client (`github_api.post` / `github_api.patch`).

We embed a handler as a pure function from the payload fields it reads to the
pair `(issued calls, result)`: the list of outbound calls it issues, in order,
and an `Except` value that is `.ok ()` when the handler returns normally and
`.error _` when an exception propagates out of it.  The behaviour of the remote
API is a parameter `api : Call → Except E ApiResp`: for each issued call it
yields either the response (of which the handlers only ever read the `id`
field of the check-run create response) or an error `e : E` (a network/4xx/5xx
failure of that call).  Timestamps (`datetime.utcnow().isoformat()`) are
parameters `t1 t2 : String`, logging is not modelled (it has no observable
effect), and Python strings are Lean `String`s.
-/

set_option linter.unusedVariables false

namespace GithubBot

/-- Python per-character lower-casing, `s.lower()`.  For the ASCII titles and
markers this development evaluates, CPython lower-cases exactly the letters
`A`–`Z`, which is what `Char.toLower` does. -/
def pyLower (s : String) : String := ⟨s.data.map Char.toLower⟩

/-- Character-list version of Python prefix matching: `startsWithL n h` is
true when `n` is an initial segment of `h`. -/
def startsWithL : List Char → List Char → Bool
  | [], _ => true
  | _ :: _, [] => false
  | a :: as, b :: bs => a == b && startsWithL as bs

/-- Contiguous-substring search over character lists: `hasSub n h` is true
when `n` occurs contiguously inside `h` (the semantics of Python `n in h`). -/
def hasSub (needle : List Char) : List Char → Bool
  | [] => needle.isEmpty
  | b :: bs => startsWithL needle (b :: bs) || hasSub needle bs

/-- Python `needle in hay` on strings: contiguous substring containment. -/
def strIn (needle hay : String) : Bool := hasSub needle.data hay.data

/-- The tuple `wip_markers` of `on_pr_check_wip` (lines 113–118 of the
source): the eight fixed work-in-progress marker substrings. -/
def wip_markers : List String :=
  ["wip", "🚧", "dnm",
   "work in progress", "work-in-progress",
   "do not merge", "do-not-merge",
   "draft"]

/-- The expression `is_wip_pr = any(m in pr_title for m in wip_markers)` with
`pr_title = pull_request['title'].lower()` (lines 112 and 120 of the source),
as a function of the raw title. -/
def is_wip_title (title : String) : Bool :=
  wip_markers.any (fun m => strIn m (pyLower title))

/-- The conclusion expression `'success' if not is_wip_pr else 'neutral'`
(line 128 of the source), as a function of the raw title. -/
def wip_conclusion (title : String) : String :=
  if ! (is_wip_title title) then "success" else "neutral"

/-- The payload fields of `payload['pull_request']` that the two pull-request
handlers read. -/
structure PullRequest where
  number : Nat
  merged : Bool
  title : String
  head_ref : String
  head_sha : String
  head_repo_url : String
  comments_url : String
  user_login : String
deriving DecidableEq

/-- The payload fields of `payload['issue']` that `on_issue_opened` reads. -/
structure Issue where
  comments_url : String
  user_login : String
deriving DecidableEq

/-- The `output` object of the completed check-run patch. -/
structure CheckOutput where
  title : String
  text : String
  summary : String
deriving DecidableEq

/-- The JSON body (`data=...`) of each outbound call the handlers build, one
constructor per literal dictionary in the source. -/
inductive ReqData where
  | comment (body : String)
  | checkCreate (name head_sha status started_at : String)
  | checkProgress (name status : String)
  | checkComplete (name status conclusion completed_at : String)
      (output : CheckOutput)
deriving DecidableEq

/-- One outbound REST call: the client method used and its URL and body. -/
inductive Call where
  | post (url : String) (data : ReqData)
  | patch (url : String) (data : ReqData)
deriving DecidableEq

/-- The only response field the handlers read: `resp["id"]` of the check-run
create call. -/
structure ApiResp where
  id : Nat
deriving DecidableEq

/-- An exception propagating out of `on_pr_check_wip`: either Python's
`UnboundLocalError` for a function local read before its assignment, or an
error of the remote API. -/
inductive PyErr (E : Type) where
  | unboundLocal (name : String)
  | api (e : E)
deriving DecidableEq

/-- Handler for `('pull_request', {'closed'})` (source lines 14–40).  When
`pull_request['merged']` is falsy it logs and returns early with no outbound
call; otherwise it issues one POST to `pull_request["comments_url"]` with body
`f"Thanks for the PR @{author}! "` and returns, propagating the call's error
if it fails. -/
def on_pr_merged {E : Type} (api : Call → Except E ApiResp)
    (pr : PullRequest) : List Call × Except E Unit :=
  if ! pr.merged then
    ([], .ok ())
  else
    let comments_api_url := pr.comments_url
    let author := pr.user_login
    let message := "Thanks for the PR @" ++ author ++ "! "
    let c : Call := .post comments_api_url (.comment message)
    ([c], match api c with
          | .ok _ => .ok ()
          | .error e => .error e)

/-- Handler for `('issues', {'opened'})` (source lines 43–62).  It
unconditionally issues one POST to `issue["comments_url"]` with body
`f"Thanks for the report @{author}! " "I will look into it ASAP! (I'm a bot 🤖)."`
and returns, propagating the call's error if it fails. -/
def on_issue_opened {E : Type} (api : Call → Except E ApiResp)
    (issue : Issue) : List Call × Except E Unit :=
  let comments_api_url := issue.comments_url
  let author := issue.user_login
  let message := "Thanks for the report @" ++ author ++
    "! I will look into it ASAP! (I'm a bot 🤖)."
  let c : Call := .post comments_api_url (.comment message)
  ([c], match api c with
        | .ok _ => .ok ()
        | .error e => .error e)

/-- Python `repr` of a string without escapes: the string between single
quotes, as it appears inside `f'wip_markers={wip_markers!r}'`. -/
def pyReprStr (s : String) : String := "'" ++ s ++ "'"

/-- Python `repr` of the `wip_markers` tuple, used verbatim in the completed
check-run's debug text. -/
def wipMarkersRepr : String :=
  "(" ++ String.intercalate ", " (wip_markers.map pyReprStr) ++ ")"

/-- The `text` field shared by both branches of the completed check-run's
`output` object (its f-string interpolates `is_wip_pr`, the lower-cased title
and the marker tuple's repr). -/
def wipDebugText (is_wip_pr : Bool) (pr_title : String) : String :=
  "Debug info:\n" ++
  "is_wip_pr=" ++ (if is_wip_pr then "True" else "False") ++ "\n" ++
  "pr_title=" ++ pr_title ++ "\n" ++
  "wip_markers=" ++ wipMarkersRepr

/-- The `output` object of the completed check-run patch (source lines
129–166): the non-WIP branch when `not is_wip_pr`, the WIP branch
otherwise. -/
def wipOutput (is_wip_pr : Bool) (pr_title : String) : CheckOutput :=
  if ! is_wip_pr then
    { title := "🤖 This PR is not Work-in-progress: Good to go"
      text := wipDebugText is_wip_pr pr_title
      summary :=
        "This change is ready to be reviewed.\n\n" ++
        "![Go ahead and review it!](" ++
        "https://farm1.staticflickr.com" ++
        "/173/400428874_e087aa720d_b.jpg)" }
  else
    { title := "🤖 This PR is Work-in-progress: It is incomplete"
      text := wipDebugText is_wip_pr pr_title
      summary :=
        "🚧 Please do not merge this PR " ++
        "as it is still under construction.\n\n" ++
        "![Under constuction tape](" ++
        "https://cdn.pixabay.com" ++
        "/photo/2012/04/14/14/59" ++
        "/border-34209_960_720.png)" ++
        "![Homer's on the job](" ++
        "https://farm3.staticflickr.com" ++
        "/2150/2101058680_64fa63971e.jpg)" }

/-- Handler for `('pull_request', {'opened', 'edited'})` (source lines
65–166), as CPython executes it.  The body's first outbound call,
`resp = await github_api.post(check_runs_base_uri, ...)` at line 92, reads the
name `github_api`; but the assignment `github_api =
RUNTIME_CONTEXT.app_installation_client` occurs only at line 105, after that
first use, and an assignment anywhere in a Python function body makes the
name local to the whole function.  Evaluating the call expression therefore
raises `UnboundLocalError` before any HTTP request is issued: for every
payload and every API behaviour the handler issues no outbound call and
propagates the error.  The three-call sequence the rest of the body specifies
(lines 92–166) is embedded as `on_pr_check_wip_bound`. -/
def on_pr_check_wip {E : Type} (api : Call → Except E ApiResp)
    (pr : PullRequest) (t1 t2 : String) : List Call × Except (PyErr E) Unit :=
  let check_run_name := "Work-in-progress state"
  let pr_head_branch := pr.head_ref
  let pr_head_sha := pr.head_sha
  let repo_url := pr.head_repo_url
  let check_runs_base_uri := repo_url ++ "/check-runs"
  ([], .error (.unboundLocal "github_api"))

/-- The body of `on_pr_check_wip` (source lines 79–166) as its docstring and
the module intend it to run, i.e. with the local `github_api` bound to the
installation client throughout (the source binds it only at line 105, after
its first use; `on_pr_check_wip` is the faithful embedding of what CPython
actually does).  Each outbound call is recorded when it is issued; a failing
call propagates its error and aborts the rest of the body. -/
def on_pr_check_wip_bound {E : Type} (api : Call → Except E ApiResp)
    (pr : PullRequest) (t1 t2 : String) : List Call × Except E Unit :=
  let check_run_name := "Work-in-progress state"
  let pr_head_branch := pr.head_ref
  let pr_head_sha := pr.head_sha
  let repo_url := pr.head_repo_url
  let check_runs_base_uri := repo_url ++ "/check-runs"
  let createCall : Call := .post check_runs_base_uri
    (.checkCreate check_run_name pr_head_sha "queued" (t1 ++ "Z"))
  match api createCall with
  | .error e => ([createCall], .error e)
  | .ok resp =>
    let check_runs_updates_uri := check_runs_base_uri ++ "/" ++ toString resp.id
    let progressCall : Call := .patch check_runs_updates_uri
      (.checkProgress check_run_name "in_progress")
    match api progressCall with
    | .error e => ([createCall, progressCall], .error e)
    | .ok _ =>
      let pr_title := pyLower pr.title
      let is_wip_pr := wip_markers.any (fun m => strIn m pr_title)
      let completeCall : Call := .patch check_runs_updates_uri
        (.checkComplete check_run_name "completed"
          (if ! is_wip_pr then "success" else "neutral") (t2 ++ "Z")
          (wipOutput is_wip_pr pr_title))
      match api completeCall with
      | .error e => ([createCall, progressCall, completeCall], .error e)
      | .ok _ => ([createCall, progressCall, completeCall], .ok ())

/-- The `status` field a call carries, when it is a check-run call. -/
def callStatus : Call → Option String
  | .post _ (.checkCreate _ _ s _) => some s
  | .patch _ (.checkProgress _ s) => some s
  | .patch _ (.checkComplete _ s _ _ _) => some s
  | _ => none

/-- The `conclusion` field a call carries, when it is a completed check-run
patch. -/
def callConclusion : Call → Option String
  | .patch _ (.checkComplete _ _ c _ _) => some c
  | _ => none

/-- Whether a call uses the client's `post` method (as opposed to `patch`). -/
def isPostCall : Call → Bool
  | .post _ _ => true
  | .patch _ _ => false

/-- Position of a check-run status in its forward lifecycle. -/
def statusRank : String → Nat
  | "queued" => 0
  | "in_progress" => 1
  | "completed" => 2
  | _ => 3

/-- The check-run statuses sent by a call list only ever move forward through
queued → in_progress → completed: no later call carries an earlier status. -/
def statusesAdvance (cs : List Call) : Prop :=
  (cs.filterMap callStatus).Pairwise (fun a b => statusRank a ≤ statusRank b)

/-- An API behaviour that fails (with error `e`) exactly the calls satisfying
`p` and answers every other call with id `i`. -/
def apiFailOn {E : Type} (p : Call → Bool) (e : E) (i : Nat) :
    Call → Except E ApiResp :=
  fun c => if p c then .error e else .ok ⟨i⟩

/-- Recognises the check-run create call. -/
def isCreateCall : Call → Bool
  | .post _ (.checkCreate _ _ _ _) => true
  | _ => false

/-- Recognises the check-run in_progress patch. -/
def isProgressCall : Call → Bool
  | .patch _ (.checkProgress _ _) => true
  | _ => false

/-- Recognises the check-run completed patch. -/
def isCompleteCall : Call → Bool
  | .patch _ (.checkComplete _ _ _ _ _) => true
  | _ => false

/-- An API behaviour in which every call succeeds, answering id 42. -/
def apiOk : Call → Except String ApiResp := fun _ => .ok ⟨42⟩

/-- A concrete pull-request payload: PR 1, "Add feature", not merged. -/
def pr0 : PullRequest :=
  { number := 1
    merged := false
    title := "Add feature"
    head_ref := "feature-branch"
    head_sha := "deadbeef"
    head_repo_url := "https://api.github.com/repos/octocat/hello"
    comments_url := "https://api.github.com/repos/octocat/hello/issues/1/comments"
    user_login := "octocat" }

/-- A concrete pull-request payload whose title carries a WIP marker. -/
def prWip : PullRequest :=
  { number := 2
    merged := false
    title := "WIP: add feature"
    head_ref := "wip-branch"
    head_sha := "cafebabe"
    head_repo_url := "https://api.github.com/repos/octocat/hello"
    comments_url := "https://api.github.com/repos/octocat/hello/issues/2/comments"
    user_login := "octocat" }

/-- A concrete merged pull-request payload. -/
def prMerged : PullRequest :=
  { number := 3
    merged := true
    title := "Fix everything"
    head_ref := "fix-branch"
    head_sha := "0123abcd"
    head_repo_url := "https://api.github.com/repos/octocat/hello"
    comments_url := "https://api.github.com/repos/octocat/hello/issues/3/comments"
    user_login := "alice" }

/-- A concrete pull-request payload closed without merging. -/
def prClosed : PullRequest :=
  { number := 4
    merged := false
    title := "Abandoned idea"
    head_ref := "old-branch"
    head_sha := "4567ef01"
    head_repo_url := "https://api.github.com/repos/octocat/hello"
    comments_url := "https://api.github.com/repos/octocat/hello/issues/4/comments"
    user_login := "bob" }

/-- A concrete issue payload. -/
def issue0 : Issue :=
  { comments_url := "https://api.github.com/repos/octocat/hello/issues/7/comments"
    user_login := "octocat" }

/-! Substring machinery: `startsWithL`/`hasSub` agree with the mathematical
prefix/infix characterisations, giving transitivity of Python's `in`. -/

theorem startsWithL_iff (as : List Char) :
    ∀ bs, startsWithL as bs = true ↔ ∃ t, bs = as ++ t := by
  induction as with
  | nil =>
    intro bs
    simp [startsWithL]
  | cons a as ih =>
    intro bs
    cases bs with
    | nil => simp [startsWithL]
    | cons b bs =>
      simp only [startsWithL, Bool.and_eq_true, beq_iff_eq, ih,
        List.cons_append, List.cons.injEq]
      constructor
      · rintro ⟨rfl, t, rfl⟩
        exact ⟨t, rfl, rfl⟩
      · rintro ⟨t, rfl, rfl⟩
        exact ⟨rfl, t, rfl⟩

theorem hasSub_iff (n : List Char) :
    ∀ h, hasSub n h = true ↔ ∃ p t, h = p ++ n ++ t := by
  intro h
  induction h with
  | nil =>
    rw [hasSub]
    constructor
    · intro hn
      refine ⟨[], [], ?_⟩
      simp [List.isEmpty_iff.mp hn]
    · rintro ⟨p, t, hpt⟩
      rcases List.append_eq_nil.mp hpt.symm with ⟨h1, h2⟩
      rcases List.append_eq_nil.mp h1 with ⟨hp, hn⟩
      simp [List.isEmpty_iff, hn]
  | cons b bs ih =>
    rw [hasSub, Bool.or_eq_true, startsWithL_iff, ih]
    constructor
    · rintro (⟨t, ht⟩ | ⟨p, t, hpt⟩)
      · exact ⟨[], t, by simpa using ht⟩
      · exact ⟨b :: p, t, by simp [hpt]⟩
    · rintro ⟨p, t, hpt⟩
      cases p with
      | nil => exact Or.inl ⟨t, by simpa using hpt⟩
      | cons q ps =>
        simp only [List.cons_append, List.cons.injEq] at hpt
        exact Or.inr ⟨ps, t, hpt.2⟩

theorem hasSub_trans {a b c : List Char} (h1 : hasSub a b = true)
    (h2 : hasSub b c = true) : hasSub a c = true := by
  rcases (hasSub_iff a b).mp h1 with ⟨p1, t1, rfl⟩
  rcases (hasSub_iff _ c).mp h2 with ⟨p2, t2, rfl⟩
  exact (hasSub_iff a _).mpr ⟨p2 ++ p1, t1 ++ t2, by simp⟩

/-! The claims. -/

/-- C1: the claim says `on_pr_check_wip` issues exactly 3 outbound calls in
order create (POST, status queued) → patch (in_progress) → patch (completed).
The code does not: `github_api` is a function local first assigned at line
105, after its first use at line 92, so CPython raises `UnboundLocalError`
at the create call and the handler issues 0 outbound calls, for any payload.
This theorem evaluates the handler at a concrete opened-PR payload (first
conjunct), and shows that the call sequence the rest of the body specifies —
embedded as `on_pr_check_wip_bound`, the evident intent per the docstring and
the module — is exactly the claimed 3-call sequence (remaining conjuncts). -/
theorem pr_check_wip_unbound_local_no_calls :
    on_pr_check_wip apiOk pr0 "2019-10-02T10:00:00" "2019-10-02T10:00:01"
      = ([], .error (.unboundLocal "github_api"))
  ∧ (on_pr_check_wip_bound apiOk pr0 "2019-10-02T10:00:00"
      "2019-10-02T10:00:01").1.filterMap callStatus
      = ["queued", "in_progress", "completed"]
  ∧ (on_pr_check_wip_bound apiOk pr0 "2019-10-02T10:00:00"
      "2019-10-02T10:00:01").1.map isPostCall = [true, false, false] :=
  ⟨rfl, rfl, rfl⟩

/-- C2 counterexample: at a concrete opened-issue payload the body the claim
states (ending in "(I'm a bot).") is not what the handler posts — the source's
literal ends in "(I'm a bot 🤖)." with the robot emoji. -/
theorem issue_opened_body_differs :
    ¬ ((on_issue_opened apiOk issue0).1
      = [.post issue0.comments_url
          (.comment "Thanks for the report @octocat! I will look into it ASAP! (I'm a bot).")]) := by
  decide

/-- C2 as amended: for every issues/opened event the handler unconditionally
issues exactly one POST, to the issue's comments_url, whose body is
"Thanks for the report @{author}! I will look into it ASAP! (I'm a bot 🤖)."
with {author} replaced by issue.user.login. -/
theorem issue_opened_posts_ack {E : Type} (api : Call → Except E ApiResp)
    (issue : Issue) :
    (on_issue_opened api issue).1
      = [.post issue.comments_url
          (.comment ("Thanks for the report @" ++ issue.user_login ++
            "! I will look into it ASAP! (I'm a bot 🤖)."))] := rfl

/-- C3: the claim says the final (completed) patch of `on_pr_check_wip`
carries conclusion "neutral" iff the lower-cased title contains one of the 8
markers.  The code never issues that patch: the handler aborts with
`UnboundLocalError` before its first call (first two conjuncts, evaluated at
a WIP-titled payload).  The conclusion expression of the source (line 128) is
itself exactly as claimed: in the intended call sequence
`on_pr_check_wip_bound` the unique completed patch carries
`wip_conclusion pr.title` (third conjunct), which is "neutral" iff
`is_wip_title`, the 8-marker substring test on the lower-cased title, holds
(fourth conjunct); the failing payload's title is WIP-marked (fifth). -/
theorem pr_check_wip_no_completed_patch :
    (on_pr_check_wip apiOk prWip "T1" "T2").1 = []
  ∧ (on_pr_check_wip apiOk prWip "T1" "T2").2 = .error (.unboundLocal "github_api")
  ∧ (∀ (pr : PullRequest) (t1 t2 : String),
      (on_pr_check_wip_bound apiOk pr t1 t2).1.filterMap callConclusion
        = [wip_conclusion pr.title])
  ∧ (∀ title : String, wip_conclusion title = "neutral" ↔ is_wip_title title = true)
  ∧ is_wip_title prWip.title = true := by
  refine ⟨rfl, rfl, fun pr t1 t2 => rfl, ?_, by decide⟩
  intro t
  cases h : is_wip_title t <;> simp [wip_conclusion, h]

/-- C4: for every pull_request/closed payload with merged = true,
`on_pr_merged` issues exactly one POST, to the pull request's comments_url,
with body "Thanks for the PR @{author}! " (trailing space included) where
{author} is pull_request.user.login. -/
theorem pr_merged_posts_thanks {E : Type} (api : Call → Except E ApiResp)
    (pr : PullRequest) (h : pr.merged = true) :
    (on_pr_merged api pr).1
      = [.post pr.comments_url
          (.comment ("Thanks for the PR @" ++ pr.user_login ++ "! "))] := by
  simp [on_pr_merged, h]

theorem pr_merged_posts_thanks_witness :
    (on_pr_merged apiOk prMerged).1
      = [.post prMerged.comments_url
          (.comment ("Thanks for the PR @" ++ prMerged.user_login ++ "! "))] :=
  pr_merged_posts_thanks apiOk prMerged rfl

/-- C5: for every pull_request/closed payload with merged = false,
`on_pr_merged` issues no outbound call and returns normally (early return,
result `.ok ()`, not an error), for any API behaviour. -/
theorem pr_closed_unmerged_no_calls {E : Type} (api : Call → Except E ApiResp)
    (pr : PullRequest) (h : pr.merged = false) :
    on_pr_merged api pr = ([], .ok ()) := by
  simp [on_pr_merged, h]

theorem pr_closed_unmerged_no_calls_witness :
    on_pr_merged apiOk prClosed = ([], .ok ()) :=
  pr_closed_unmerged_no_calls apiOk prClosed rfl

/-- C6: WIP-marker matching is substring-based and case-insensitive: two
titles with the same lower-casing get the same conclusion, and the title
"Fix DNM bug" (lower-cased "fix dnm bug", which contains the marker "dnm")
gets conclusion "neutral". -/
theorem wip_match_case_insensitive :
    (∀ t1 t2 : String, pyLower t1 = pyLower t2 →
      wip_conclusion t1 = wip_conclusion t2)
  ∧ wip_conclusion "Fix DNM bug" = "neutral" := by
  constructor
  · intro t1 t2 h
    simp [wip_conclusion, is_wip_title, h]
  · decide

theorem wip_match_case_insensitive_witness :
    wip_conclusion "Fix DNM bug" = wip_conclusion "fIx dNm BUG"
  ∧ wip_conclusion "Fix DNM bug" = "neutral" :=
  ⟨wip_match_case_insensitive.1 "Fix DNM bug" "fIx dNm BUG" (by decide),
   wip_match_case_insensitive.2⟩

/-- C7: within one invocation, the check-run statuses sent only advance
forward through queued → in_progress → completed — no later outbound call
carries an earlier status.  This holds of the handler as executed (which, by
the unbound-local fault recorded at C1, sends no status at all) and,
non-vacuously, of the call sequence its body specifies
(`on_pr_check_wip_bound`), under every API behaviour, including ones that
fail some of the calls. -/
theorem pr_check_wip_status_forward {E : Type} (api : Call → Except E ApiResp)
    (pr : PullRequest) (t1 t2 : String) :
    statusesAdvance (on_pr_check_wip api pr t1 t2).1
  ∧ statusesAdvance (on_pr_check_wip_bound api pr t1 t2).1 := by
  constructor
  · simp [on_pr_check_wip, statusesAdvance]
  · simp only [statusesAdvance, on_pr_check_wip_bound]
    split
    · simp only [List.filterMap_cons, List.filterMap_nil, callStatus]
      decide
    · split
      · simp only [List.filterMap_cons, List.filterMap_nil, callStatus]
        decide
      · split
        · simp only [List.filterMap_cons, List.filterMap_nil, callStatus]
          decide
        · simp only [List.filterMap_cons, List.filterMap_nil, callStatus]
          decide

/-- C8: a failure of any of the three GitHub calls of the WIP-check sequence
propagates (no local catch or retry), the remaining calls are not issued, and
the already-issued calls are not rolled back, so the check run can be left at
the non-terminal queued or in_progress status.  Stated over the call sequence
the body specifies (`on_pr_check_wip_bound`) with an API that fails exactly
the create, in_progress or completed call; the first conjunct records that
the handler as executed also catches nothing — it propagates its
`UnboundLocalError` to the framework. -/
theorem pr_check_wip_failure_propagates {E : Type} (e : E) (i : Nat)
    (pr : PullRequest) (t1 t2 : String) (api : Call → Except E ApiResp) :
    on_pr_check_wip api pr t1 t2 = ([], .error (.unboundLocal "github_api"))
  ∧ (on_pr_check_wip_bound (apiFailOn isCreateCall e i) pr t1 t2).2 = .error e
  ∧ (on_pr_check_wip_bound (apiFailOn isCreateCall e i) pr t1 t2).1.filterMap
      callStatus = ["queued"]
  ∧ (on_pr_check_wip_bound (apiFailOn isProgressCall e i) pr t1 t2).2 = .error e
  ∧ (on_pr_check_wip_bound (apiFailOn isProgressCall e i) pr t1 t2).1.filterMap
      callStatus = ["queued", "in_progress"]
  ∧ (on_pr_check_wip_bound (apiFailOn isCompleteCall e i) pr t1 t2).2 = .error e
  ∧ (on_pr_check_wip_bound (apiFailOn isCompleteCall e i) pr t1 t2).1.filterMap
      callStatus = ["queued", "in_progress", "completed"] :=
  ⟨rfl, rfl, rfl, rfl, rfl, rfl, rfl⟩

/-- C9: the behaviour of the WIP-check handler does not depend on
pull_request.head.ref: two payloads that differ only in that field produce
identical outcomes (issued calls and result), both for the handler as
executed and for the call sequence its body specifies — the field is read
into the local `pr_head_branch` and never used in any request. -/
theorem pr_check_wip_ignores_head_ref {E : Type} (api : Call → Except E ApiResp)
    (pr : PullRequest) (r : String) (t1 t2 : String) :
    on_pr_check_wip api { pr with head_ref := r } t1 t2
      = on_pr_check_wip api pr t1 t2
  ∧ on_pr_check_wip_bound api { pr with head_ref := r } t1 t2
      = on_pr_check_wip_bound api pr t1 t2 :=
  ⟨rfl, rfl⟩

/-- C10: WIP classification is monotone under title extension: if the
lower-casing of t1 occurs as a substring of the lower-casing of t2, then t1
classified work-in-progress forces t2 classified work-in-progress; in
particular a conclusion of "neutral" can never turn into "success" by adding
text around the title. -/
theorem wip_monotone_under_extension (t1 t2 : String)
    (hsub : strIn (pyLower t1) (pyLower t2) = true) :
    (is_wip_title t1 = true → is_wip_title t2 = true)
  ∧ (wip_conclusion t1 = "neutral" → wip_conclusion t2 = "neutral") := by
  have key : is_wip_title t1 = true → is_wip_title t2 = true := by
    intro h1
    unfold is_wip_title at h1 ⊢
    rcases List.any_eq_true.mp h1 with ⟨m, hm, hmt⟩
    refine List.any_eq_true.mpr ⟨m, hm, ?_⟩
    exact hasSub_trans hmt hsub
  refine ⟨key, ?_⟩
  intro hc
  have h1 : is_wip_title t1 = true := by
    cases h : is_wip_title t1 with
    | true => rfl
    | false => simp [wip_conclusion, h] at hc
  have h2 := key h1
  simp [wip_conclusion, h2]

theorem wip_monotone_under_extension_witness :
    is_wip_title "WIP: polish docs" = true
  ∧ wip_conclusion "WIP: polish docs" = "neutral" :=
  ⟨(wip_monotone_under_extension "WIP" "WIP: polish docs" (by decide)).1
      (by decide),
   (wip_monotone_under_extension "WIP" "WIP: polish docs" (by decide)).2
      (by decide)⟩

end GithubBot
